import Mathlib

/-!
# Verification of the smart-contract anomaly-detection pipeline

Shallow embedding of `src/ai-detector/src/AnomalyDetector.py`
(`ContractFeatureExtractor`, `AnomalyDetector`, `AnomalyDetectorAPI`).

Modelling conventions, used throughout:

* Python numbers (ints and floats) are modelled by `ℚ`.  Every numeric value
  the claims mention is either an integer count or an exact ratio of counts,
  so `ℚ` is faithful for the properties proved here.
* Python regular-expression counting (`re.findall`) is modelled by explicit
  scanners over `List Char`.  `re.findall` scans left to right, counts
  non-overlapping matches, and restarts right after each match; alternation
  prefers the leftmost branch.  Every pattern used by the extractor consists
  of literals and character-class quantifiers `\s*`, `\s+`, `\w+`, `[^x]*`
  in which each quantified class is disjoint from the item that follows it,
  so greedy matching without backtracking coincides with Python's semantics.
* `sklearn`'s `StandardScaler` and `IsolationForest` are third-party code:
  their *interface behaviour* (shape/name validation, the reset-then-validate
  order inside `fit`, zero-variance scale handling) is embedded concretely,
  while the learned isolation-forest scoring function and the square root
  used for the standard deviation are abstracted as parameters (`SkOracle`);
  no claim below depends on their numeric values.
* File persistence (`joblib.dump`/`joblib.load`) is modelled as a map from
  path strings to blobs, with `dump` overwriting the entry at its path.
-/

/-! ## Character classes (Python `\w`, `\s` on ASCII input) -/

def isW (c : Char) : Bool :=
  ('a' ≤ c && c ≤ 'z') || ('A' ≤ c && c ≤ 'Z') || ('0' ≤ c && c ≤ '9') || c = '_'

def isS (c : Char) : Bool :=
  c = ' ' || c = '\t' || c = '\n' || c = '\r' || c = '\x0b' || c = '\x0c'

/-! ## Matchers

A matcher tries to match a pattern at the head of the input and returns the
remaining input on success. -/

abbrev Mch := List Char → Option (List Char)

def mChar (a : Char) : Mch := fun cs =>
  match cs with
  | c :: rest => if c = a then some rest else none
  | [] => none

def mStr : List Char → Mch
  | [], cs => some cs
  | a :: as, cs => (mChar a cs).bind (mStr as)

/-- Literal string pattern. -/
def lit (s : String) : Mch := mStr s.data

def mSeq (m1 m2 : Mch) : Mch := fun cs => (m1 cs).bind m2

def mSeq3 (m1 m2 m3 : Mch) : Mch := mSeq m1 (mSeq m2 m3)

/-- Ordered alternation, first branch preferred (as in `re`). -/
def mAlt (m1 m2 : Mch) : Mch := fun cs =>
  match m1 cs with
  | some r => some r
  | none => m2 cs

/-- Greedy `class*`. -/
def mStar (p : Char → Bool) : Mch := fun cs => some (cs.dropWhile p)

/-- Greedy `class+`. -/
def mPlus (p : Char → Bool) : Mch := fun cs =>
  match cs with
  | c :: rest => if p c then some (rest.dropWhile p) else none
  | [] => none

/-! ## `re.findall` counting

Fuel-indexed scan; fuel `cs.length` is exact because every pattern below
matches at least one character, so each step consumes at least one character.
The `if r.length < cs.length` guard mirrors Python's empty-match rule
(count the match, advance one position); it never fires for these patterns. -/

def countMatchesAux (m : Mch) : Nat → List Char → Nat
  | 0, _ => 0
  | Nat.succ _, [] => 0
  | Nat.succ k, c :: rest =>
    match m (c :: rest) with
    | some r => 1 + countMatchesAux m k (if r.length < rest.length + 1 then r else rest)
    | none => countMatchesAux m k rest

def countMatches (m : Mch) (s : String) : Nat :=
  countMatchesAux m s.data.length s.data

/-- Count matches of `\b<m>` where the first character of `m` is a word
character: the match may start only where the previous character is not a
word character.  `prev` is the character before the current position. -/
def countWordBAux (m : Mch) : Nat → Option Char → List Char → Nat
  | 0, _, _ => 0
  | Nat.succ _, _, [] => 0
  | Nat.succ k, prev, c :: rest =>
    let boundary : Bool := match prev with
      | none => true
      | some p => !(isW p)
    if boundary then
      match m (c :: rest) with
      | some r =>
        let consumed := (c :: rest).take ((c :: rest).length - r.length)
        1 + countWordBAux m k consumed.getLast? (if r.length < rest.length + 1 then r else rest)
      | none => countWordBAux m k (some c) rest
    else countWordBAux m k (some c) rest

def countWordB (m : Mch) (s : String) : Nat :=
  countWordBAux m s.data.length none s.data

/-- Count matches of a `^`-anchored pattern under `re.MULTILINE`: the match
may start only at the start of the string or right after a newline. -/
def countAnchoredAux (m : Mch) : Nat → Bool → List Char → Nat
  | 0, _, _ => 0
  | Nat.succ _, _, [] => 0
  | Nat.succ k, atStart, c :: rest =>
    if atStart then
      match m (c :: rest) with
      | some r => 1 + countAnchoredAux m k false (if r.length < rest.length + 1 then r else rest)
      | none => countAnchoredAux m k (c = '\n') rest
    else countAnchoredAux m k (c = '\n') rest

def countAnchored (m : Mch) (s : String) : Nat :=
  countAnchoredAux m s.data.length true s.data

/-! ## The extractor's patterns (`ContractFeatureExtractor.patterns` and the
inline regexes of `extract_features`) -/

/-- `function\s+\w+` -/
def patFunctionDecl : Mch := mSeq3 (lit "function") (mPlus isS) (mPlus isW)

/-- `event\s+\w+` -/
def patEventDecl : Mch := mSeq3 (lit "event") (mPlus isS) (mPlus isW)

/-- `modifier\s+\w+` -/
def patModifierDecl : Mch := mSeq3 (lit "modifier") (mPlus isS) (mPlus isW)

/-- `constructor\s*\(` -/
def patConstructor : Mch := mSeq3 (lit "constructor") (mStar isS) (mChar '(')

/-- `\.call\{|\.\s*call\s*\(|\.delegatecall|\.staticcall` -/
def patExternalCall : Mch :=
  mAlt (mSeq (lit ".call") (mChar '\x7b'))
    (mAlt (mSeq3 (mChar '.') (mStar isS) (mSeq3 (lit "call") (mStar isS) (mChar '(')))
      (mAlt (lit ".delegatecall") (lit ".staticcall")))

/-- `\.send\s*\(|\.transfer\s*\(` -/
def patSendTransfer : Mch :=
  mAlt (mSeq3 (lit ".send") (mStar isS) (mChar '('))
    (mSeq3 (lit ".transfer") (mStar isS) (mChar '('))

/-- `selfdestruct\s*\(|suicide\s*\(` -/
def patSelfdestruct : Mch :=
  mAlt (mSeq3 (lit "selfdestruct") (mStar isS) (mChar '('))
    (mSeq3 (lit "suicide") (mStar isS) (mChar '('))

/-- `assembly\s*\{` -/
def patAssembly : Mch := mSeq3 (lit "assembly") (mStar isS) (mChar '\x7b')

/-- `unchecked\s*\{` -/
def patUnchecked : Mch := mSeq3 (lit "unchecked") (mStar isS) (mChar '\x7b')

/-- `require\s*\(` -/
def patRequire : Mch := mSeq3 (lit "require") (mStar isS) (mChar '(')

/-- `tx\.origin` -/
def patTxOrigin : Mch := lit "tx.origin"

/-- `block\.timestamp|block\.number|block\.difficulty` -/
def patBlockValues : Mch :=
  mAlt (lit "block.timestamp") (mAlt (lit "block.number") (lit "block.difficulty"))

/-- `balance|balanceOf` (the second branch is shadowed by the first, as in
the source). -/
def patBalance : Mch := mAlt (lit "balance") (lit "balanceOf")

/-- `receive\s*\(\s*\)|fallback\s*\(\s*\)` -/
def patEtherLock : Mch :=
  mAlt (mSeq3 (lit "receive") (mStar isS) (mSeq3 (mChar '(') (mStar isS) (mChar ')')))
    (mSeq3 (lit "fallback") (mStar isS) (mSeq3 (mChar '(') (mStar isS) (mChar ')')))

/-- `nonReentrant|ReentrancyGuard` -/
def patReentrancy : Mch := mAlt (lit "nonReentrant") (lit "ReentrancyGuard")

/-- `\s*\w+\s+\w+\s*;` body of the `^`-anchored state-variable pattern. -/
def patStateVar : Mch :=
  mSeq3 (mStar isS) (mPlus isW) (mSeq3 (mPlus isS) (mPlus isW) (mSeq (mStar isS) (mChar ';')))

/-- `mapping\s*\(` -/
def patMapping : Mch := mSeq3 (lit "mapping") (mStar isS) (mChar '(')

/-- `\[\]` -/
def patArray : Mch := lit "[]"

/-- `contract\s+\w+\s+is\s+` -/
def patInheritance : Mch :=
  mSeq3 (lit "contract") (mPlus isS) (mSeq3 (mPlus isW) (mPlus isS) (mSeq (lit "is") (mPlus isS)))

/-- `import\s+` -/
def patImport : Mch := mSeq (lit "import") (mPlus isS)

/-- `if\s*\(` (used with a leading `\b`) -/
def patIf : Mch := mSeq3 (lit "if") (mStar isS) (mChar '(')

/-- `for\s*\(` (used with a leading `\b`) -/
def patFor : Mch := mSeq3 (lit "for") (mStar isS) (mChar '(')

/-- `while\s*\(` (used with a leading `\b`) -/
def patWhile : Mch := mSeq3 (lit "while") (mStar isS) (mChar '(')

/-- `do\s*{` (used with a leading `\b`) -/
def patDo : Mch := mSeq3 (lit "do") (mStar isS) (mChar '\x7b')

/-! ## Function-body extraction for `_calculate_avg_function_length`

Python: `re.findall(r'function\s+\w+[^{]*{([^}]*)}', code)` returns the
captured bodies. -/

/-- Try to match `function\s+\w+[^{]*{([^}]*)}` at the head; return the
captured group and the rest. -/
def mFuncBody (cs : List Char) : Option (List Char × List Char) :=
  (lit "function" cs).bind fun r1 =>
  (mPlus isS r1).bind fun r2 =>
  (mPlus isW r2).bind fun r3 =>
  let r4 := r3.dropWhile (fun c => !(c = '\x7b'))
  match r4 with
  | c :: r5 =>
    if c = '\x7b' then
      let body := r5.takeWhile (fun c => !(c = '\x7d'))
      let r6 := r5.dropWhile (fun c => !(c = '\x7d'))
      match r6 with
      | d :: r7 => if d = '\x7d' then some (body, r7) else none
      | [] => none
    else none
  | [] => none

def funcBodiesAux : Nat → List Char → List (List Char)
  | 0, _ => []
  | Nat.succ _, [] => []
  | Nat.succ k, c :: rest =>
    match mFuncBody (c :: rest) with
    | some (body, r) =>
      body :: funcBodiesAux k (if r.length < rest.length + 1 then r else rest)
    | none => funcBodiesAux k rest

def funcBodies (s : String) : List (List Char) :=
  funcBodiesAux s.data.length s.data

/-- `len(x.split('\n'))` = number of newline characters + 1. -/
def splitLineCount (cs : List Char) : Nat :=
  (cs.filter (fun c => c = '\n')).length + 1

/-- `_calculate_avg_function_length`: average body length in lines, `0` when
no function body matches. -/
def avg_function_length_of (code : String) : ℚ :=
  let bodies := funcBodies code
  if bodies.isEmpty then 0
  else ((bodies.map splitLineCount).sum : ℚ) / (bodies.length : ℚ)

/-- `_estimate_cyclomatic_complexity`: `1 + #if + #for + #while + #do`. -/
def cyclomatic_complexity_of (code : String) : Nat :=
  1 + countWordB patIf code + countWordB patFor code +
    countWordB patWhile code + countWordB patDo code

/-! ## `ContractFeatureExtractor.extract_features` -/

/-- The base-feature record: the dict literal of `extract_features`
(lines 101–141 of `AnomalyDetector.py`), fields in source order. -/
structure FeatureRec where
  lines_of_code : ℚ
  contract_size : ℚ
  function_count : ℚ
  event_count : ℚ
  modifier_count : ℚ
  constructor_count : ℚ
  state_variables : ℚ
  mappings : ℚ
  arrays : ℚ
  inheritance_count : ℚ
  import_count : ℚ
  external_calls : ℚ
  send_transfer_calls : ℚ
  selfdestruct_calls : ℚ
  assembly_blocks : ℚ
  unchecked_blocks : ℚ
  tx_origin_uses : ℚ
  block_value_uses : ℚ
  require_statements : ℚ
  balance_checks : ℚ
  ether_receive : ℚ
  reentrancy_protection : ℚ
  using_safe_math : ℚ
  avg_function_length : ℚ
  cyclomatic_complexity : ℚ
  external_calls_per_function : ℚ
  require_per_function : ℚ
  complexity_per_function : ℚ
  deriving DecidableEq

/-- Python's substring test `sub in s`. -/
def containsSeg (pat : List Char) : List Char → Bool
  | [] => pat.isEmpty
  | c :: cs => pat.isPrefixOf (c :: cs) || containsSeg pat cs

/-- The base features computed by `extract_features` for non-empty source
(for empty source the Python function returns `{}` before reaching this
code; see `extract_features` below). -/
def extractRec (code : String) : FeatureRec :=
  let function_count := countMatches patFunctionDecl code
  let external_calls := countMatches patExternalCall code
  let require_statements := countMatches patRequire code
  let cyclomatic_complexity := cyclomatic_complexity_of code
  { lines_of_code := ((code.data.filter (fun c => c = '\n')).length + 1 : Nat)
    contract_size := (code.length : Nat)
    function_count := (function_count : Nat)
    event_count := (countMatches patEventDecl code : Nat)
    modifier_count := (countMatches patModifierDecl code : Nat)
    constructor_count := (countMatches patConstructor code : Nat)
    state_variables := (countAnchored patStateVar code : Nat)
    mappings := (countMatches patMapping code : Nat)
    arrays := (countMatches patArray code : Nat)
    inheritance_count := (countMatches patInheritance code : Nat)
    import_count := (countMatches patImport code : Nat)
    external_calls := (external_calls : Nat)
    send_transfer_calls := (countMatches patSendTransfer code : Nat)
    selfdestruct_calls := (countMatches patSelfdestruct code : Nat)
    assembly_blocks := (countMatches patAssembly code : Nat)
    unchecked_blocks := (countMatches patUnchecked code : Nat)
    tx_origin_uses := (countMatches patTxOrigin code : Nat)
    block_value_uses := (countMatches patBlockValues code : Nat)
    require_statements := (require_statements : Nat)
    balance_checks := (countMatches patBalance code : Nat)
    ether_receive := (countMatches patEtherLock code : Nat)
    reentrancy_protection := (countMatches patReentrancy code : Nat)
    using_safe_math := if containsSeg "SafeMath".data code.data then 1 else 0
    avg_function_length := avg_function_length_of code
    cyclomatic_complexity := (cyclomatic_complexity : Nat)
    external_calls_per_function := (external_calls : ℚ) / max (function_count : ℚ) 1
    require_per_function := (require_statements : ℚ) / max (function_count : ℚ) 1
    complexity_per_function := (cyclomatic_complexity : ℚ) / max (function_count : ℚ) 1 }

/-- Keys of the base-feature dict, in dict-literal order. -/
def baseFeatureKeys : List String :=
  ["lines_of_code", "contract_size", "function_count", "event_count",
   "modifier_count", "constructor_count", "state_variables", "mappings",
   "arrays", "inheritance_count", "import_count", "external_calls",
   "send_transfer_calls", "selfdestruct_calls", "assembly_blocks",
   "unchecked_blocks", "tx_origin_uses", "block_value_uses",
   "require_statements", "balance_checks", "ether_receive",
   "reentrancy_protection", "using_safe_math", "avg_function_length",
   "cyclomatic_complexity", "external_calls_per_function",
   "require_per_function", "complexity_per_function"]

/-- The base-feature dict as an association list, entries in dict-literal
order. -/
def recToPairs (F : FeatureRec) : List (String × ℚ) :=
  [("lines_of_code", F.lines_of_code), ("contract_size", F.contract_size),
   ("function_count", F.function_count), ("event_count", F.event_count),
   ("modifier_count", F.modifier_count), ("constructor_count", F.constructor_count),
   ("state_variables", F.state_variables), ("mappings", F.mappings),
   ("arrays", F.arrays), ("inheritance_count", F.inheritance_count),
   ("import_count", F.import_count), ("external_calls", F.external_calls),
   ("send_transfer_calls", F.send_transfer_calls),
   ("selfdestruct_calls", F.selfdestruct_calls),
   ("assembly_blocks", F.assembly_blocks), ("unchecked_blocks", F.unchecked_blocks),
   ("tx_origin_uses", F.tx_origin_uses), ("block_value_uses", F.block_value_uses),
   ("require_statements", F.require_statements), ("balance_checks", F.balance_checks),
   ("ether_receive", F.ether_receive),
   ("reentrancy_protection", F.reentrancy_protection),
   ("using_safe_math", F.using_safe_math),
   ("avg_function_length", F.avg_function_length),
   ("cyclomatic_complexity", F.cyclomatic_complexity),
   ("external_calls_per_function", F.external_calls_per_function),
   ("require_per_function", F.require_per_function),
   ("complexity_per_function", F.complexity_per_function)]

/-- `opcodes_to_track` of `ContractFeatureExtractor.__init__`. -/
def opcodesToTrack : List String :=
  ["CALL", "DELEGATECALL", "STATICCALL", "SELFDESTRUCT", "SSTORE", "SLOAD",
   "CREATE", "CREATE2", "EXTCODESIZE", "EXTCODECOPY", "BALANCE"]

def opcodeKeys : List String :=
  ["opcode_call", "opcode_delegatecall", "opcode_staticcall",
   "opcode_selfdestruct", "opcode_sstore", "opcode_sload", "opcode_create",
   "opcode_create2", "opcode_extcodesize", "opcode_extcodecopy",
   "opcode_balance"]

def lowerAll (s : String) : String := String.mk (s.data.map Char.toLower)

def upperAll (s : String) : String := String.mk (s.data.map Char.toUpper)

/-- `_extract_bytecode_features`: per tracked opcode,
`bytecode.upper().count(opcode)` (non-overlapping substring count) under key
`opcode_<name lowercased>`. -/
def bytecode_features (bytecode : String) : List (String × ℚ) :=
  opcodesToTrack.map fun op =>
    ("opcode_" ++ lowerAll op, (countMatches (lit op) (upperAll bytecode) : Nat))

/-- Python truthiness of the optional bytecode argument. -/
def pyTruthy : Option String → Bool
  | none => false
  | some s => !(s = "")

/-- `ContractFeatureExtractor.extract_features`: the returned dict as an
association list.  For falsy (empty) source the function returns `{}`
before computing anything; otherwise the base dict, extended (via
`features.update`) by the bytecode features when bytecode is truthy. -/
def extract_features (code : String) (bytecode : Option String) : List (String × ℚ) :=
  if code = "" then []
  else
    recToPairs (extractRec code) ++
      (if pyTruthy bytecode then bytecode_features (bytecode.getD "") else [])

/-! ## `AnomalyDetector._analyze_anomaly_factors` -/

/-- An entry of `anomaly_factors`:
`{factor: ..., description: ..., value: ...}`. -/
structure Factor where
  factor : String
  description : String
  value : ℚ
  deriving DecidableEq

/-- `f'Contract has unusual number of {factor_name} ({features[factor]})'`. -/
def unusualNumberDesc (factorName : String) (v : ℚ) : String :=
  "Contract has unusual number of " ++ factorName ++ " (" ++ toString v ++ ")"

/-- `_analyze_anomaly_factors`, with the `risk_factors` loop unrolled in the
dict's insertion order (`selfdestruct_calls`, `external_calls`,
`tx_origin_uses`, `assembly_blocks`, `reentrancy_protection`,
`using_safe_math`); the `if factor in features` test is always true because
every key of `risk_factors` is a key of the feature dict.  Each `if` guard
transcribes the source threshold. -/
def analyze_anomaly_factors (F : FeatureRec) : List Factor :=
  (if F.contract_size > 10000 then
    [⟨"large_contract_size",
      "Contract is unusually large which may indicate complexity issues",
      F.contract_size⟩] else [])
  ++ (if F.selfdestruct_calls > 0 then
    [⟨"selfdestruct_calls", unusualNumberDesc "selfdestruct calls" F.selfdestruct_calls,
      F.selfdestruct_calls⟩] else [])
  ++ (if F.external_calls > 5 then
    [⟨"external_calls", unusualNumberDesc "external calls" F.external_calls,
      F.external_calls⟩] else [])
  ++ (if F.tx_origin_uses > 0 then
    [⟨"tx_origin_uses", unusualNumberDesc "tx origin uses" F.tx_origin_uses,
      F.tx_origin_uses⟩] else [])
  ++ (if F.assembly_blocks > 3 then
    [⟨"assembly_blocks", unusualNumberDesc "assembly blocks" F.assembly_blocks,
      F.assembly_blocks⟩] else [])
  ++ (if F.reentrancy_protection = 0 ∧ F.external_calls > 0 then
    [⟨"missing_reentrancy_protection",
      "Contract makes external calls but has no reentrancy protection",
      F.external_calls⟩] else [])
  ++ (if F.using_safe_math = 0 then
    [⟨"missing_safe_math",
      "Contract does not use SafeMath which may indicate vulnerability to overflow/underflow",
      0⟩] else [])
  ++ (if F.cyclomatic_complexity > 50 then
    [⟨"high_complexity",
      "Contract has high cyclomatic complexity which may indicate maintainability issues",
      F.cyclomatic_complexity⟩] else [])
  ++ (if F.external_calls_per_function > 2 then
    [⟨"high_external_calls_per_function",
      "Contract has unusually high ratio of external calls per function",
      F.external_calls_per_function⟩] else [])
  ++ (if F.require_per_function < 1/2 ∧ F.function_count > 5 then
    [⟨"low_require_checks",
      "Contract has low number of require checks per function which may indicate missing validation",
      F.require_per_function⟩] else [])

/-! ## `AnomalyDetector._generate_recommendation` -/

/-- The per-factor remediation sentence of the `elif` chain; `none` for a
factor key outside the chain. -/
def remLineFor (key : String) : Option String :=
  if key = "selfdestruct_calls" then
    some "- Implement strict access controls for selfdestruct operations."
  else if key = "external_calls" then
    some "- Review and limit external calls. Consider implementing the checks-effects-interactions pattern."
  else if key = "tx_origin_uses" then
    some "- Replace tx.origin with msg.sender to prevent phishing attacks."
  else if key = "assembly_blocks" then
    some "- Review inline assembly code carefully for potential bugs or vulnerabilities."
  else if key = "missing_reentrancy_protection" then
    some "- Implement reentrancy guards (like OpenZeppelin\x27s ReentrancyGuard) for functions making external calls."
  else if key = "missing_safe_math" then
    some "- Use SafeMath library or Solidity 0.8.0+ for automatic overflow/underflow protection."
  else if key = "high_complexity" then
    some "- Consider refactoring complex functions into smaller, more manageable pieces."
  else if key = "large_contract_size" then
    some "- Split large contracts into smaller, specialized contracts to improve readability and gas efficiency."
  else if key = "low_require_checks" then
    some "- Add thorough input validation with require statements for each function."
  else if key = "high_external_calls_per_function" then
    some "- Review and possibly reduce the number of external calls per function to limit exposure."
  else none

def recHeader : String :=
  "The contract contains unusual patterns that may indicate potential issues:"

def noAnomalyText : String :=
  "No significant anomalies detected. The contract appears to follow common patterns."

/-- The remediation lines appended by the `for factor in anomaly_factors`
loop, in factor order. -/
def recLines (factors : List Factor) : List String :=
  factors.filterMap fun f => remLineFor f.factor

/-- `_generate_recommendation` (the unused `features` argument of the Python
method is omitted). -/
def generate_recommendation (pred : Int) (factors : List Factor) : String :=
  if pred ≠ -1 then noAnomalyText
  else String.intercalate "\n" (recHeader :: recLines factors)

/-! ## The sklearn boundary

`StandardScaler` is embedded down to its interface behaviour: fitted
per-column statistics, feature-name validation on `transform`, the
reset-then-validate order inside `fit`, and the replacement of a zero scale
by `1` (`_handle_zeros_in_scale`).  The standard deviation itself
(`sqrt` of the variance) is irrational in general, so the fitted state
stores the variance and the square root is an abstract parameter
(`SkOracle.std`); no theorem below depends on its value on non-zero input.

`IsolationForest` is embedded as: the number of features seen at fit time
(`n_features_in_`, validated by `score_samples`/`predict`) plus abstract
score and label functions produced at fit time by `SkOracle.fitIF`. -/

inductive SkErr where
  /-- `NotFittedError` from `check_is_fitted`. -/
  | notFitted : SkErr
  /-- `ValueError` from feature-name validation in `transform`. -/
  | featureNames : SkErr
  /-- `ValueError` from shape validation (`check_array`). -/
  | badShape : SkErr
  deriving DecidableEq

/-- One fitted column of a `StandardScaler`: feature name, mean, variance. -/
structure FitCol where
  name : String
  mean : ℚ
  var : ℚ
  deriving DecidableEq

/-- A `StandardScaler`: `fitted = none` models the state before `fit` (or
after `_reset`). -/
structure PyScaler where
  fitted : Option (List FitCol)
  deriving DecidableEq

/-- The fitted state of an `IsolationForest` (an unfitted model is
`Option PyForest = none` in the detector). -/
structure PyForest where
  nFeatures : Nat
  scoreFn : List ℚ → ℚ
  labelFn : List ℚ → Int

/-- The abstract result of fitting an isolation forest. -/
structure ForestFit where
  scoreFn : List ℚ → ℚ
  labelFn : List ℚ → Int

/-- Abstracted sklearn internals: the square root used for the scaler's
scale, and the learned forest. -/
structure SkOracle where
  std : ℚ → ℚ
  fitIF : List (List ℚ) → ForestFit

/-- The z-scored value of one cell: `(x - mean) / scale` where the zero
scale (zero variance) is replaced by `1`. -/
def scaleVal (std : ℚ → ℚ) (x : ℚ) (fc : FitCol) : ℚ :=
  (x - fc.mean) / (if fc.var = 0 then 1 else std fc.var)

/-- `StandardScaler.transform` on a one-row DataFrame with columns `cols`
and values `row`: `NotFittedError` when unfitted, `ValueError` when the
feature names differ from those seen at fit time, otherwise the z-scored
row. -/
def PyScaler.transformRow (std : ℚ → ℚ) (sc : PyScaler) (cols : List String)
    (row : List ℚ) : Except SkErr (List ℚ) :=
  match sc.fitted with
  | none => .error .notFitted
  | some fcs =>
    if cols = fcs.map FitCol.name then .ok (List.zipWith (scaleVal std) row fcs)
    else .error .featureNames

/-- Mean of a column, `sum / n`. -/
def colMean (xs : List ℚ) : ℚ := xs.sum / (xs.length : ℚ)

/-- Population variance of a column (`ddof = 0`, as in `StandardScaler`). -/
def colVar (xs : List ℚ) : ℚ :=
  ((xs.map fun x => (x - colMean xs) ^ 2).sum) / (xs.length : ℚ)

/-- Dict lookup with the `fillna(0)` default: a record missing a column of
the DataFrame contributes `NaN`, which `fillna(0)` turns into `0`. -/
def lookupQ (pairs : List (String × ℚ)) (k : String) : ℚ :=
  match pairs.find? (fun kv => kv.fst = k) with
  | some kv => kv.snd
  | none => 0

/-- Keep the first occurrence of each element, preserving order. -/
def firstDedup (l : List String) : List String :=
  l.foldl (fun acc k => if acc.contains k then acc else acc ++ [k]) []

/-- Columns of `pd.DataFrame(list_of_dicts)`: union of the dicts' keys in
first-appearance order. -/
def dfCols (dicts : List (List (String × ℚ))) : List String :=
  firstDedup ((dicts.map (fun d => d.map Prod.fst)).flatten)

/-- The row of one dict, aligned to `cols`, after `fillna(0)`. -/
def dfRow (cols : List String) (dict : List (String × ℚ)) : List ℚ :=
  cols.map (lookupQ dict)

/-- `StandardScaler.fit` statistics for the feature matrix. -/
def fitScaler (cols : List String) (dicts : List (List (String × ℚ))) : List FitCol :=
  cols.map fun k =>
    let col := dicts.map fun d => lookupQ d k
    { name := k, mean := colMean col, var := colVar col }

/-- `score_samples(X)[0]` / `predict(X)[0]` shape validation:
`check_array` rejects an empty feature axis, and the estimator rejects a
width different from `n_features_in_`. -/
def PyForest.scoreRow (f : PyForest) (row : List ℚ) : Except SkErr ℚ :=
  if row.length = 0 then .error .badShape
  else if row.length = f.nFeatures then .ok (f.scoreFn row)
  else .error .badShape

def PyForest.labelRow (f : PyForest) (row : List ℚ) : Except SkErr Int :=
  if row.length = 0 then .error .badShape
  else if row.length = f.nFeatures then .ok (f.labelFn row)
  else .error .badShape

/-! ## `AnomalyDetector` -/

structure AnomalyDetector where
  scaler : PyScaler
  model : Option PyForest
  threshold_score : ℚ

/-- A detector as built by `AnomalyDetector.__init__` without an existing
model file: fresh scaler, unfitted `IsolationForest`, threshold `-0.5`. -/
def AnomalyDetector.fresh : AnomalyDetector :=
  { scaler := ⟨none⟩, model := none, threshold_score := -(1 / 2 : ℚ) }

/-- The result dict of `AnomalyDetector.predict`. -/
structure PredictOut where
  is_anomaly : Bool
  anomaly_score : ℚ
  features : List (String × ℚ)
  anomaly_factors : List Factor
  threshold : ℚ
  recommendation : String
  deriving DecidableEq

/-- The part of `predict` after the feature row `X` has been chosen
(scoring, factor analysis, result assembly). -/
def predictCore (d : AnomalyDetector) (pairs : List (String × ℚ))
    (F : FeatureRec) (X : List ℚ) : Except SkErr PredictOut :=
  match d.model with
  | none => .error .notFitted
  | some f =>
    (f.scoreRow X).bind fun score =>
    (f.labelRow X).bind fun pred =>
    let factors := if pred = -1 then analyze_anomaly_factors F else []
    .ok { is_anomaly := pred = -1
          anomaly_score := score
          features := pairs
          anomaly_factors := factors
          threshold := d.threshold_score
          recommendation := generate_recommendation pred factors }

/-- `AnomalyDetector.predict`: extract features, try to normalize, and on
*any* scaling failure (bare `except:`) fall back to the raw feature values;
then score.  Scoring errors propagate. -/
def AnomalyDetector.predict (ora : SkOracle) (d : AnomalyDetector)
    (code : String) (bytecode : Option String) : Except SkErr PredictOut :=
  let pairs := extract_features code bytecode
  let X : List ℚ :=
    match d.scaler.transformRow ora.std (pairs.map Prod.fst) (pairs.map Prod.snd) with
    | .ok z => z
    | .error _ => pairs.map Prod.snd
  predictCore d pairs (extractRec code) X

/-- Outcome of a call to `AnomalyDetector.train`: the exception raised, if
any, and the detector state after the call (Python mutates in place). -/
structure TrainOutcome where
  raised : Option SkErr
  state : AnomalyDetector

/-- A training record (`{'code': ..., 'bytecode': ...}`; the `abi` entry is
passed through to the extractor and ignored there). -/
structure ContractRec where
  code : String
  bytecode : Option String

/-- `AnomalyDetector.train`.  `scaler.fit_transform` first resets the
scaler's fitted state (`fit` calls `_reset()` before `partial_fit`), then
validates the matrix: an empty sample or feature axis raises `ValueError`,
leaving the scaler reset and the model untouched.  On success the scaler is
fitted, the matrix is z-scored, and the forest is fitted on it. -/
def AnomalyDetector.train (ora : SkOracle) (d : AnomalyDetector)
    (contracts_data : List ContractRec) : TrainOutcome :=
  let dicts := contracts_data.map fun c => extract_features c.code c.bytecode
  let cols := dfCols dicts
  if dicts.length = 0 ∨ cols.length = 0 then
    { raised := some .badShape, state := { d with scaler := ⟨none⟩ } }
  else
    let fcs := fitScaler cols dicts
    let X := dicts.map fun dict => List.zipWith (scaleVal ora.std) (dfRow cols dict) fcs
    let ff := ora.fitIF X
    { raised := none
      state := { d with
        scaler := ⟨some fcs⟩
        model := some { nFeatures := cols.length, scoreFn := ff.scoreFn,
                        labelFn := ff.labelFn } } }

/-! ## `AnomalyDetector.save_model` and persistence -/

/-- A serialized blob: `joblib.dump` writes either the model or the scaler. -/
inductive Blob where
  | model : Option PyForest → Blob
  | scaler : PyScaler → Blob

/-- Python `path.replace('.pkl', '_scaler.pkl')`: replace every
non-overlapping occurrence of `.pkl`, left to right.  Fuel `cs.length` is
exact: every step consumes at least one character. -/
def replacePklFuel : Nat → List Char → List Char
  | 0, cs => cs
  | Nat.succ _, [] => []
  | Nat.succ k, c :: cs =>
    if ".pkl".data.isPrefixOf (c :: cs) then
      "_scaler.pkl".data ++ replacePklFuel k (List.drop 3 cs)
    else c :: replacePklFuel k cs

def replacePklStr (s : String) : String := String.mk (replacePklFuel s.data.length s.data)

/-- Whether `.pkl` occurs as a substring. -/
def containsPkl : List Char → Bool
  | [] => false
  | c :: cs => ".pkl".data.isPrefixOf (c :: cs) || containsPkl cs

/-- The file system as a map from paths to blobs; `joblib.dump` overwrites
the entry at its path. -/
def fsStore (fs : String → Option Blob) (path : String) (b : Blob) :
    String → Option Blob :=
  fun q => if q = path then some b else fs q

/-- `AnomalyDetector.save_model`: dump the model at `model_path`, then dump
the scaler at `model_path.replace('.pkl', '_scaler.pkl')`. -/
def AnomalyDetector.save_model (d : AnomalyDetector)
    (fs : String → Option Blob) (model_path : String) : String → Option Blob :=
  fsStore (fsStore fs model_path (Blob.model d.model))
    (replacePklStr model_path) (Blob.scaler d.scaler)

/-! ## `AnomalyDetectorAPI` -/

structure AnalyzeResponse where
  status : String
  risk_level : String
  anomaly_score : ℚ
  analysis_summary : String
  recommendation : String
  anomaly_factors : List Factor
  detailed_features : List (String × ℚ)
  deriving DecidableEq

/-- The high-risk factor list of `_determine_risk_level`. -/
def highRiskKeys : List String :=
  ["selfdestruct_calls", "tx_origin_uses", "missing_reentrancy_protection"]

/-- `AnomalyDetectorAPI._determine_risk_level`. -/
def determine_risk_level (result : PredictOut) : String :=
  if !result.is_anomaly then "Low"
  else
    let high_risk_count :=
      result.anomaly_factors.countP fun f => highRiskKeys.contains f.factor
    if high_risk_count > 0 ∨ result.anomaly_score < -(4 / 5 : ℚ) then "High"
    else if result.anomaly_score < -(3 / 5 : ℚ) then "Medium"
    else "Low-Medium"

def securityFactorKeys : List String :=
  ["selfdestruct_calls", "tx_origin_uses", "missing_reentrancy_protection",
   "missing_safe_math"]

def complexityFactorKeys : List String := ["high_complexity", "large_contract_size"]

def structureFactorKeys : List String :=
  ["external_calls", "high_external_calls_per_function", "low_require_checks",
   "assembly_blocks"]

/-- `AnomalyDetectorAPI._create_analysis_summary`.  The three category key
sets are pairwise disjoint, so assigning each factor to the first matching
category equals filtering per category. -/
def create_analysis_summary (result : PredictOut) : String :=
  if !result.is_anomaly then
    "This contract follows common patterns and doesn\x27t exhibit unusual characteristics."
  else if result.anomaly_factors.isEmpty then
    "This contract deviates from common patterns, but no specific risk factors were identified."
  else
    let descs := fun (keys : List String) =>
      (result.anomaly_factors.filter fun f => keys.contains f.factor).map Factor.description
    let sec := descs securityFactorKeys
    let com := descs complexityFactorKeys
    let str := descs structureFactorKeys
    let parts :=
      (if sec.isEmpty then [] else ["Security issues: " ++ String.intercalate ", " sec])
      ++ (if com.isEmpty then [] else ["Complexity issues: " ++ String.intercalate ", " com])
      ++ (if str.isEmpty then [] else ["Structure issues: " ++ String.intercalate ", " str])
    String.intercalate " " parts

def importantKeys : List String :=
  ["function_count", "external_calls", "selfdestruct_calls", "tx_origin_uses",
   "assembly_blocks", "require_statements", "reentrancy_protection",
   "using_safe_math", "cyclomatic_complexity"]

/-- `AnomalyDetectorAPI._filter_important_features`. -/
def filter_important_features (pairs : List (String × ℚ)) : List (String × ℚ) :=
  pairs.filter fun kv => importantKeys.contains kv.fst

/-- `AnomalyDetectorAPI.analyze_contract`: run `predict` (exceptions
propagate to the HTTP layer) and format the response. -/
def AnomalyDetectorAPI.analyze_contract (ora : SkOracle) (d : AnomalyDetector)
    (code : String) (bytecode : Option String) : Except SkErr AnalyzeResponse :=
  (AnomalyDetector.predict ora d code bytecode).map fun result =>
    { status := if result.is_anomaly then "🔴 Anomaly detected"
                else "🟢 No anomalies detected"
      risk_level := determine_risk_level result
      anomaly_score := result.anomaly_score
      analysis_summary := create_analysis_summary result
      recommendation := result.recommendation
      anomaly_factors := result.anomaly_factors
      detailed_features := filter_important_features result.features }

/-- `Except` success as a Boolean. -/
def exceptOk {ε α : Type} : Except ε α → Bool
  | .ok _ => true
  | .error _ => false

/-! ## Spec-side definitions and concrete fixtures used by the theorems -/

/-- The risk-level rule as the spec states it: "Low" if not anomalous;
"High" if some factor in `anomaly_factors` has key `selfdestruct_calls`,
`tx_origin_uses` or `missing_reentrancy_protection`, or the score is below
`-0.8`; else "Medium" below `-0.6`; else "Low-Medium". -/
def riskLevelSpec (result : PredictOut) : String :=
  if result.is_anomaly = false then "Low"
  else if (∃ f ∈ result.anomaly_factors,
        f.factor = "selfdestruct_calls" ∨ f.factor = "tx_origin_uses" ∨
        f.factor = "missing_reentrancy_protection") ∨
      result.anomaly_score < -(4 / 5 : ℚ) then "High"
  else if result.anomaly_score < -(3 / 5 : ℚ) then "Medium"
  else "Low-Medium"

/-- The example source string of the spec (§8). -/
def exampleSource : String :=
  "pragma solidity ^0.8.0; contract C \x7b function set(uint x) public \x7b data = x; \x7d function get() public view returns (uint) \x7b return data; \x7d \x7d"

/-- The ten factor keys `_analyze_anomaly_factors` can emit, in rule order. -/
def canonicalFactorKeys : List String :=
  ["large_contract_size", "selfdestruct_calls", "external_calls",
   "tx_origin_uses", "assembly_blocks", "missing_reentrancy_protection",
   "missing_safe_math", "high_complexity", "high_external_calls_per_function",
   "low_require_checks"]

/-- A concrete oracle: identity square root, sum-scoring forest labelling
everything normal. -/
def ora0 : SkOracle :=
  { std := fun v => v
    fitIF := fun _ => { scoreFn := fun xs => xs.sum, labelFn := fun _ => 1 } }

/-- A concrete fitted forest over the 28 base features: score is the first
entry of the feature row, label is always `1` (normal). -/
def forest28 : PyForest :=
  { nFeatures := 28, scoreFn := fun xs => xs.headD 0, labelFn := fun _ => 1 }

/-- A concrete fitted forest over the 28 base features labelling everything
anomalous. -/
def forestAnom : PyForest :=
  { nFeatures := 28, scoreFn := fun _ => 0, labelFn := fun _ => -1 }

/-- A detector fitted compatibly with the base schema: the scaler's columns
are the extractor's keys, with the features of `"x"` as means and zero
variance (so `"x"` z-scores to the zero row). -/
def dFit : AnomalyDetector :=
  { scaler := ⟨some ((extract_features "x" none).map fun kv => ⟨kv.fst, kv.snd, 0⟩)⟩
    model := some forest28
    threshold_score := -(1 / 2 : ℚ) }

/-- A detector whose scaler was fitted on a different schema, so
normalization fails at inference time. -/
def dMismatch : AnomalyDetector :=
  { scaler := ⟨some [⟨"bogus", 0, 0⟩]⟩
    model := some forest28
    threshold_score := -(1 / 2 : ℚ) }

/-- A detector whose scaler is fitted on the base schema with zero means and
zero variances, so the z-scored row equals the raw row. -/
def dZero : AnomalyDetector :=
  { scaler := ⟨some ((extract_features "x" none).map fun kv => ⟨kv.fst, 0, 0⟩)⟩
    model := some forest28
    threshold_score := -(1 / 2 : ℚ) }

/-- A detector with an unfitted scaler and an always-anomalous forest. -/
def dAnom : AnomalyDetector :=
  { scaler := ⟨none⟩, model := some forestAnom, threshold_score := -(1 / 2 : ℚ) }

def defaultPredictOut : PredictOut :=
  { is_anomaly := false, anomaly_score := 0, features := [],
    anomaly_factors := [], threshold := 0, recommendation := "" }

/-- The concrete anomalous prediction result used to witness C9. -/
def rAnom : PredictOut :=
  ((AnomalyDetector.predict ora0 dAnom "x" none).toOption).getD defaultPredictOut

/-! ## Helper lemmas -/

theorem recToPairs_keys (F : FeatureRec) :
    (recToPairs F).map Prod.fst = baseFeatureKeys := rfl

theorem bytecode_features_keys (b : String) :
    (bytecode_features b).map Prod.fst = opcodeKeys := rfl

theorem avg_function_length_nonneg (code : String) :
    0 ≤ avg_function_length_of code := by
  simp only [avg_function_length_of]
  split
  · exact le_refl 0
  · exact div_nonneg (Nat.cast_nonneg _) (Nat.cast_nonneg _)

theorem max_cast_one_pos (q : ℚ) : 0 < max q 1 :=
  lt_max_of_lt_right zero_lt_one

theorem extractRec_values_nonneg (code : String) :
    ∀ v ∈ (recToPairs (extractRec code)).map Prod.snd, 0 ≤ v := by
  intro v hv
  simp only [recToPairs, extractRec, List.map_cons, List.map_nil, List.mem_cons,
    List.not_mem_nil, or_false] at hv
  rcases hv with rfl | rfl | rfl | rfl | rfl | rfl | rfl | rfl | rfl | rfl | rfl |
    rfl | rfl | rfl | rfl | rfl | rfl | rfl | rfl | rfl | rfl | rfl | rfl | rfl |
    rfl | rfl | rfl | rfl
  all_goals first
    | exact Nat.cast_nonneg _
    | exact avg_function_length_nonneg code
    | exact div_nonneg (Nat.cast_nonneg _) (le_of_lt (max_cast_one_pos _))
    | · split
        · exact zero_le_one
        · exact le_refl 0

theorem bytecode_values_nonneg (b : String) :
    ∀ v ∈ (bytecode_features b).map Prod.snd, 0 ≤ v := by
  intro v hv
  simp only [bytecode_features, List.map_map, List.mem_map] at hv
  obtain ⟨op, -, rfl⟩ := hv
  exact Nat.cast_nonneg _

/-! ## C1 -/

/-- **C1** (counterexample).  The claim states that `extract_features`
returns the full base-feature schema *for every source string, including
the empty string*.  On the empty string the function returns the empty
dict `{}` (line 49–50: `if not contract_code: return {}`), whose key set is
not the base schema. -/
theorem C1_counterexample :
    extract_features "" none = [] ∧ baseFeatureKeys ≠ [] := by
  exact ⟨rfl, by decide⟩

/-- **C1** (amended).  For every *non-empty* source string the returned
mapping's key set is exactly the base-feature schema, extended by the
`opcode_*` keys exactly when a truthy (non-empty) bytecode is given, and
every value in the mapping is non-negative; for the empty string the
returned mapping is empty. -/
theorem C1_schema_and_nonneg (code : String) (bytecode : Option String)
    (h : code ≠ "") :
    (extract_features code bytecode).map Prod.fst
      = baseFeatureKeys ++ (if pyTruthy bytecode then opcodeKeys else []) ∧
    ∀ v ∈ (extract_features code bytecode).map Prod.snd, 0 ≤ v := by
  unfold extract_features
  rw [if_neg h]
  constructor
  · rw [List.map_append, recToPairs_keys]
    by_cases ht : pyTruthy bytecode
    · simp [ht, bytecode_features_keys]
    · simp [ht]
  · intro v hv
    rw [List.map_append, List.mem_append] at hv
    rcases hv with hv | hv
    · exact extractRec_values_nonneg code v hv
    · by_cases ht : pyTruthy bytecode
      · rw [if_pos ht] at hv
        exact bytecode_values_nonneg _ v hv
      · rw [if_neg ht] at hv
        simp at hv

/-- Witness for `C1_schema_and_nonneg` at the one-character source `"x"`. -/
theorem C1_schema_and_nonneg_witness :
    ("x" ≠ "") ∧
    ((extract_features "x" none).map Prod.fst
        = baseFeatureKeys ++ (if pyTruthy none then opcodeKeys else []) ∧
      ∀ v ∈ (extract_features "x" none).map Prod.snd, 0 ≤ v) :=
  ⟨by decide, C1_schema_and_nonneg "x" none (by decide)⟩

/-! ## C5 -/

/-- **C5**.  `_determine_risk_level` computes exactly the risk level the
spec describes. -/
theorem C5_risk_level (result : PredictOut) :
    determine_risk_level result = riskLevelSpec result := by
  unfold determine_risk_level riskLevelSpec
  cases hA : result.is_anomaly with
  | false => simp
  | true =>
    simp only [Bool.not_true, Bool.false_eq_true, if_false, if_neg (by simp : ¬(true = false))]
    refine if_congr (or_congr ?_ Iff.rfl) rfl rfl
    rw [gt_iff_lt, List.countP_pos_iff]
    constructor
    · rintro ⟨f, hf, hp⟩
      refine ⟨f, hf, ?_⟩
      have : f.factor ∈ highRiskKeys := by
        simpa using hp
      simpa [highRiskKeys] using this
    · rintro ⟨f, hf, hp⟩
      refine ⟨f, hf, ?_⟩
      have : f.factor ∈ highRiskKeys := by
        simp [highRiskKeys]
        tauto
      simpa using this

/-! ## C6 -/

theorem mem_ite_singleton {c : Prop} [Decidable c] {x f : Factor}
    (h : f ∈ (if c then [x] else ([] : List Factor))) : c ∧ f = x := by
  by_cases hc : c
  · rw [if_pos hc] at h
    exact ⟨hc, List.mem_singleton.mp h⟩
  · rw [if_neg hc] at h
    exact absurd h (List.not_mem_nil f)

/-- The `missing_reentrancy_protection` rule, over an arbitrary feature
record: the factor with that key and value `external_calls` is in the
output exactly when `reentrancy_protection == 0` and `external_calls > 0`. -/
theorem analyze_missing_reentrancy_iff (F : FeatureRec) :
    (∃ f ∈ analyze_anomaly_factors F,
        f.factor = "missing_reentrancy_protection" ∧ f.value = F.external_calls)
      ↔ (F.reentrancy_protection = 0 ∧ F.external_calls > 0) := by
  constructor
  · rintro ⟨f, hf, hk, hv⟩
    simp only [analyze_anomaly_factors, List.mem_append, or_assoc] at hf
    rcases hf with h | h | h | h | h | h | h | h | h | h
    all_goals obtain ⟨hc, rfl⟩ := mem_ite_singleton h
    all_goals first
      | exact hc
      | exact absurd hk (by simp)
  · rintro ⟨h0, hpos⟩
    refine ⟨⟨"missing_reentrancy_protection",
      "Contract makes external calls but has no reentrancy protection",
      F.external_calls⟩, ?_, rfl, rfl⟩
    simp only [analyze_anomaly_factors, List.mem_append, or_assoc]
    iterate 5 right
    left
    rw [if_pos ⟨h0, hpos⟩]
    exact List.mem_singleton_self _

/-- **C6**.  For every feature mapping produced by the extractor from
non-empty source text, the factor analysis reports
`missing_reentrancy_protection` with value `external_calls` iff
`reentrancy_protection == 0` and `external_calls > 0`. -/
theorem C6_missing_reentrancy (code : String) (h : code ≠ "") :
    (∃ f ∈ analyze_anomaly_factors (extractRec code),
        f.factor = "missing_reentrancy_protection" ∧
        f.value = (extractRec code).external_calls)
      ↔ ((extractRec code).reentrancy_protection = 0 ∧
          (extractRec code).external_calls > 0) :=
  analyze_missing_reentrancy_iff (extractRec code)

/-- Witness for `C6_missing_reentrancy` at the source `"x"`. -/
theorem C6_missing_reentrancy_witness :
    ("x" ≠ "") ∧
    ((∃ f ∈ analyze_anomaly_factors (extractRec "x"),
        f.factor = "missing_reentrancy_protection" ∧
        f.value = (extractRec "x").external_calls)
      ↔ ((extractRec "x").reentrancy_protection = 0 ∧
          (extractRec "x").external_calls > 0)) :=
  ⟨by decide, C6_missing_reentrancy "x" (by decide)⟩

/-! ## C7 -/

set_option maxRecDepth 100000 in
/-- **C7**.  On the spec's example contract, `extract_features` reports
`function_count == 2`, `external_calls == 0` and `using_safe_math == 0`. -/
theorem C7_example_extraction :
    lookupQ (extract_features exampleSource none) "function_count" = 2 ∧
    lookupQ (extract_features exampleSource none) "external_calls" = 0 ∧
    lookupQ (extract_features exampleSource none) "using_safe_math" = 0 := by
  decide

/-! ## C8 -/

/-- **C8**.  Whenever extraction returns a non-empty feature mapping, the
three derived ratios are computed with denominator
`max(function_count, 1)`; that denominator is positive (no ratio divides by
zero), and when `function_count == 0` the external-calls ratio equals
`external_calls` exactly. -/
theorem C8_ratio_denominators (code : String) (bytecode : Option String)
    (h : extract_features code bytecode ≠ []) :
    (extractRec code).external_calls_per_function
        = (extractRec code).external_calls / max (extractRec code).function_count 1 ∧
    (extractRec code).require_per_function
        = (extractRec code).require_statements / max (extractRec code).function_count 1 ∧
    (extractRec code).complexity_per_function
        = (extractRec code).cyclomatic_complexity / max (extractRec code).function_count 1 ∧
    (0 : ℚ) < max (extractRec code).function_count 1 ∧
    ((extractRec code).function_count = 0 →
      (extractRec code).external_calls_per_function = (extractRec code).external_calls) := by
  refine ⟨rfl, rfl, rfl, max_cast_one_pos _, fun h0 => ?_⟩
  show (extractRec code).external_calls / max (extractRec code).function_count 1
      = (extractRec code).external_calls
  rw [h0]
  norm_num

/-- Witness for `C8_ratio_denominators` at the source `"x"` (which has
`function_count = 0`). -/
theorem C8_ratio_denominators_witness :
    (extract_features "x" none ≠ []) ∧
    ((extractRec "x").external_calls_per_function
        = (extractRec "x").external_calls / max (extractRec "x").function_count 1 ∧
    (extractRec "x").require_per_function
        = (extractRec "x").require_statements / max (extractRec "x").function_count 1 ∧
    (extractRec "x").complexity_per_function
        = (extractRec "x").cyclomatic_complexity / max (extractRec "x").function_count 1 ∧
    (0 : ℚ) < max (extractRec "x").function_count 1 ∧
    ((extractRec "x").function_count = 0 →
      (extractRec "x").external_calls_per_function = (extractRec "x").external_calls)) :=
  ⟨by decide, C8_ratio_denominators "x" none (by decide)⟩

/-! ## C10 -/

theorem replacePklFuel_of_not_contains (n : Nat) (cs : List Char)
    (h : containsPkl cs = false) : replacePklFuel n cs = cs := by
  induction n generalizing cs with
  | zero => rfl
  | succ k ih =>
    cases cs with
    | nil => rfl
    | cons c rest =>
      rw [containsPkl] at h
      rw [Bool.or_eq_false_iff] at h
      rw [replacePklFuel, if_neg (by simp [h.1])]
      rw [ih rest h.2]

/-- **C10**.  For every path without the substring `.pkl`,
`path.replace('.pkl', '_scaler.pkl')` is the path itself, so `save_model`
writes the scaler blob over the model blob at the same path, and a
subsequent load from that path yields the scaler, not the model. -/
theorem C10_scaler_overwrites_model (fs : String → Option Blob)
    (d : AnomalyDetector) (p : String) (h : containsPkl p.data = false) :
    replacePklStr p = p ∧
    AnomalyDetector.save_model d fs p p = some (Blob.scaler d.scaler) ∧
    AnomalyDetector.save_model d fs p p ≠ some (Blob.model d.model) := by
  have hrep : replacePklStr p = p := by
    unfold replacePklStr
    rw [replacePklFuel_of_not_contains _ _ h]
  refine ⟨hrep, ?_, ?_⟩
  · unfold AnomalyDetector.save_model fsStore
    rw [hrep]
    simp
  · unfold AnomalyDetector.save_model fsStore
    rw [hrep]
    simp

/-- Witness for `C10_scaler_overwrites_model` at the path
`"anomaly_model"` (no `.pkl`), an empty file system and a fresh detector. -/
theorem C10_scaler_overwrites_model_witness :
    (containsPkl "anomaly_model".data = false) ∧
    (replacePklStr "anomaly_model" = "anomaly_model" ∧
      AnomalyDetector.save_model AnomalyDetector.fresh (fun _ => none)
          "anomaly_model" "anomaly_model"
        = some (Blob.scaler AnomalyDetector.fresh.scaler) ∧
      AnomalyDetector.save_model AnomalyDetector.fresh (fun _ => none)
          "anomaly_model" "anomaly_model"
        ≠ some (Blob.model AnomalyDetector.fresh.model)) :=
  ⟨by decide, C10_scaler_overwrites_model (fun _ => none) AnomalyDetector.fresh
    "anomaly_model" (by decide)⟩

/-! ## C2 -/

theorem exceptOk_map {ε α β : Type} (g : α → β) (e : Except ε α) :
    exceptOk (e.map g) = exceptOk e := by
  cases e <;> rfl

theorem extract_features_keys_none (code : String) (h : code ≠ "") :
    (extract_features code none).map Prod.fst = baseFeatureKeys := by
  unfold extract_features
  rw [if_neg h]
  simp [pyTruthy, recToPairs_keys]

theorem extract_features_length_none (code : String) (h : code ≠ "") :
    (extract_features code none).length = 28 := by
  have hk := extract_features_keys_none code h
  have : ((extract_features code none).map Prod.fst).length = baseFeatureKeys.length := by
    rw [hk]
  simpa using this

theorem transformRow_ok_length (std : ℚ → ℚ) (sc : PyScaler) (cols : List String)
    (row : List ℚ) (z : List ℚ) (hcr : row.length = cols.length)
    (h : sc.transformRow std cols row = .ok z) : z.length = row.length := by
  unfold PyScaler.transformRow at h
  split at h
  · exact absurd h (by simp)
  · rename_i fcs hf
    split at h
    · rename_i hc
      have hz : List.zipWith (scaleVal std) row fcs = z := by injection h
      have hlen : fcs.length = cols.length := by rw [hc]; simp
      rw [← hz, List.length_zipWith, hlen, ← hcr, min_self]
    · exact absurd h (by simp)

theorem predictCore_ok (d : AnomalyDetector) (f : PyForest)
    (pairs : List (String × ℚ)) (F : FeatureRec) (X : List ℚ)
    (hm : d.model = some f) (hn : X.length = f.nFeatures) (h0 : X.length ≠ 0) :
    exceptOk (predictCore d pairs F X) = true := by
  unfold predictCore PyForest.scoreRow PyForest.labelRow
  simp only [hm, if_neg h0, if_pos hn]
  rfl

theorem predict_eq_predictCore (ora : SkOracle) (d : AnomalyDetector)
    (code : String) (bytecode : Option String) :
    AnomalyDetector.predict ora d code bytecode
      = predictCore d (extract_features code bytecode) (extractRec code)
          (match d.scaler.transformRow ora.std
              ((extract_features code bytecode).map Prod.fst)
              ((extract_features code bytecode).map Prod.snd) with
            | .ok z => z
            | .error _ => (extract_features code bytecode).map Prod.snd) := rfl

/-- **C2** (counterexample).  A detector fitted compatibly with the
extractor's 28-key base schema still raises on the empty source string:
the empty feature dict yields a zero-width row, the silent fallback feeds
it to the model, and `score_samples` raises a shape `ValueError` — not a
structured `SchemaMismatch`. -/
theorem C2_counterexample :
    exceptOk (AnomalyDetectorAPI.analyze_contract ora0 dFit "" none) = false ∧
    dFit.model = some forest28 ∧ forest28.nFeatures = baseFeatureKeys.length := by
  exact ⟨by decide, rfl, by decide⟩

/-- **C2** (amended).  On a fitted detector whose model was fitted on the
extractor's 28-key base schema, `analyze_contract` returns a structured
result without raising for every *non-empty* source without bytecode,
whatever the scaler's state (normalization failures fall back silently);
on the empty string the model's shape validation raises. -/
theorem C2_analyze_total (ora : SkOracle) (d : AnomalyDetector) (f : PyForest)
    (hm : d.model = some f) (hn : f.nFeatures = 28)
    (code : String) (hc : code ≠ "") :
    exceptOk (AnomalyDetectorAPI.analyze_contract ora d code none) = true := by
  unfold AnomalyDetectorAPI.analyze_contract
  rw [exceptOk_map, predict_eq_predictCore]
  have hrow : ((extract_features code none).map Prod.snd).length = 28 := by
    rw [List.length_map]; exact extract_features_length_none code hc
  have hcols : ((extract_features code none).map Prod.fst).length = 28 := by
    rw [List.length_map]; exact extract_features_length_none code hc
  cases htr : d.scaler.transformRow ora.std ((extract_features code none).map Prod.fst)
      ((extract_features code none).map Prod.snd) with
  | ok z =>
    simp only [htr]
    have hz : z.length = 28 := by
      rw [transformRow_ok_length ora.std d.scaler _ _ z (by rw [hrow, hcols]) htr, hrow]
    exact predictCore_ok d f _ _ z hm (by rw [hz, hn]) (by rw [hz]; decide)
  | error e =>
    simp only [htr]
    exact predictCore_ok d f _ _ ((extract_features code none).map Prod.snd) hm
      (by rw [hrow, hn]) (by rw [hrow]; decide)

/-- Witness for `C2_analyze_total` on the fitted detector `dFit` and the
source `"x"`. -/
theorem C2_analyze_total_witness :
    (dFit.model = some forest28) ∧ (forest28.nFeatures = 28) ∧ ("x" ≠ "") ∧
    exceptOk (AnomalyDetectorAPI.analyze_contract ora0 dFit "x" none) = true :=
  ⟨rfl, by decide, by decide, C2_analyze_total ora0 dFit forest28 rfl (by decide) "x" (by decide)⟩

/-! ## C3 -/

/-- **C3** (amended, the part of the claim the code satisfies).  Whenever
normalization of the inference-time feature vector fails, `predict` scores
the raw, unnormalized feature values instead of failing the request. -/
theorem C3_fallback_to_raw (ora : SkOracle) (d : AnomalyDetector)
    (code : String) (bytecode : Option String) (e : SkErr)
    (h : d.scaler.transformRow ora.std
        ((extract_features code bytecode).map Prod.fst)
        ((extract_features code bytecode).map Prod.snd) = .error e) :
    AnomalyDetector.predict ora d code bytecode
      = predictCore d (extract_features code bytecode) (extractRec code)
          ((extract_features code bytecode).map Prod.snd) := by
  rw [predict_eq_predictCore]
  simp only [h]

/-- Witness for `C3_fallback_to_raw`: the detector `dMismatch`, whose
scaler was fitted on a different key set, falls back to raw scoring on
`"x"`. -/
theorem C3_fallback_to_raw_witness :
    (dMismatch.scaler.transformRow ora0.std
        ((extract_features "x" none).map Prod.fst)
        ((extract_features "x" none).map Prod.snd) = .error .featureNames) ∧
    AnomalyDetector.predict ora0 dMismatch "x" none
      = predictCore dMismatch (extract_features "x" none) (extractRec "x")
          ((extract_features "x" none).map Prod.snd) :=
  ⟨rfl, C3_fallback_to_raw ora0 dMismatch "x" none .featureNames rfl⟩

/-- `scaleVal` with zero mean and zero variance is the identity
(`(x - 0) / 1`). -/
theorem zipWith_scaleVal_meanZero (std : ℚ → ℚ) (pairs : List (String × ℚ)) :
    List.zipWith (scaleVal std) (pairs.map Prod.snd)
        (pairs.map fun kv => (⟨kv.fst, 0, 0⟩ : FitCol))
      = pairs.map Prod.snd := by
  induction pairs with
  | nil => rfl
  | cons p rest ih => simp [scaleVal, ih]

/-- `scaleVal` with the value itself as mean and zero variance sends the
first entry to `0` (`(x - x) / 1`). -/
theorem headD_zipWith_scaleVal_fitSelf (std : ℚ → ℚ) (pairs : List (String × ℚ))
    (h : pairs ≠ []) :
    (List.zipWith (scaleVal std) (pairs.map Prod.snd)
        (pairs.map fun kv => (⟨kv.fst, kv.snd, 0⟩ : FitCol))).headD 0 = 0 := by
  cases pairs with
  | nil => exact absurd rfl h
  | cons p rest => simp [scaleVal]

theorem predictCore_score (d : AnomalyDetector) (f : PyForest)
    (pairs : List (String × ℚ)) (F : FeatureRec) (X : List ℚ)
    (hm : d.model = some f) (hn : X.length = f.nFeatures) (h0 : X.length ≠ 0) :
    (predictCore d pairs F X).toOption.map PredictOut.anomaly_score
      = some (f.scoreFn X) := by
  unfold predictCore PyForest.scoreRow PyForest.labelRow
  simp only [hm, if_neg h0, if_pos hn]
  rfl

theorem extract_features_headD (code : String) (h : code ≠ "") :
    ((extract_features code none).map Prod.snd).headD 0
      = (extractRec code).lines_of_code := by
  unfold extract_features
  rw [if_neg h]
  rfl

theorem lines_of_code_pos (code : String) : 0 < (extractRec code).lines_of_code := by
  have h : (extractRec code).lines_of_code
      = (((code.data.filter (fun c => c = '\n')).length + 1 : Nat) : ℚ) := rfl
  rw [h]
  exact_mod_cast Nat.succ_pos _

/-- **C3** (counterexample to the degraded-path marking).  The claim also
requires the response to mark the degraded path.  It does not: on the same
source, a detector whose normalization fails (`dMismatch`) and a detector
whose normalization succeeds and is the identity (`dZero`) return *equal*
results, so no field of the response distinguishes the degraded score from
a normally calibrated one. -/
theorem C3_counterexample :
    exceptOk (dMismatch.scaler.transformRow ora0.std
        ((extract_features "x" none).map Prod.fst)
        ((extract_features "x" none).map Prod.snd)) = false ∧
    exceptOk (dZero.scaler.transformRow ora0.std
        ((extract_features "x" none).map Prod.fst)
        ((extract_features "x" none).map Prod.snd)) = true ∧
    AnomalyDetector.predict ora0 dMismatch "x" none
      = AnomalyDetector.predict ora0 dZero "x" none ∧
    exceptOk (AnomalyDetector.predict ora0 dMismatch "x" none) = true := by
  refine ⟨rfl, rfl, ?_, rfl⟩
  rw [predict_eq_predictCore, predict_eq_predictCore]
  have h1 : dMismatch.scaler.transformRow ora0.std
      ((extract_features "x" none).map Prod.fst)
      ((extract_features "x" none).map Prod.snd) = .error .featureNames := rfl
  have h2 : dZero.scaler.transformRow ora0.std
      ((extract_features "x" none).map Prod.fst)
      ((extract_features "x" none).map Prod.snd)
      = .ok (List.zipWith (scaleVal ora0.std)
          ((extract_features "x" none).map Prod.snd)
          ((extract_features "x" none).map fun kv => (⟨kv.fst, 0, 0⟩ : FitCol))) := rfl
  simp only [h1, h2]
  rw [zipWith_scaleVal_meanZero]
  rfl

/-! ## C4 -/

/-- **C4** (amended).  Training on an empty corpus raises (sklearn's
`ValueError` for an empty matrix, not a structured `EmptyCorpus`) and the
previously fitted *model* is left untouched — but the scaler is *not*:
`StandardScaler.fit` resets its fitted statistics before validating the
input, so a failed attempt leaves the scaler unfitted. -/
theorem C4_empty_train (ora : SkOracle) (d : AnomalyDetector) :
    (AnomalyDetector.train ora d []).raised = some .badShape ∧
    (AnomalyDetector.train ora d []).state.model = d.model ∧
    (AnomalyDetector.train ora d []).state.scaler.fitted = none ∧
    (AnomalyDetector.train ora d []).state.threshold_score = d.threshold_score :=
  ⟨rfl, rfl, rfl, rfl⟩

/-- **C4** (counterexample to atomicity).  On the fitted detector `dFit`, a
failed `train([])` leaves the model unchanged but resets the scaler, and
`predict` afterwards returns a *different* result on the same input than
before the failed attempt: the score is computed from the raw features
instead of the z-scored ones. -/
theorem C4_counterexample :
    (AnomalyDetector.train ora0 dFit []).raised.isSome = true ∧
    (AnomalyDetector.train ora0 dFit []).state.model = dFit.model ∧
    (AnomalyDetector.predict ora0 (AnomalyDetector.train ora0 dFit []).state "x" none).toOption
      ≠ (AnomalyDetector.predict ora0 dFit "x" none).toOption := by
  refine ⟨rfl, rfl, ?_⟩
  have hbefore : (AnomalyDetector.predict ora0 dFit "x" none).toOption.map
      PredictOut.anomaly_score = some 0 := by
    rw [predict_eq_predictCore]
    have htr : dFit.scaler.transformRow ora0.std
        ((extract_features "x" none).map Prod.fst)
        ((extract_features "x" none).map Prod.snd)
        = .ok (List.zipWith (scaleVal ora0.std)
            ((extract_features "x" none).map Prod.snd)
            ((extract_features "x" none).map fun kv =>
              (⟨kv.fst, kv.snd, 0⟩ : FitCol))) := rfl
    simp only [htr]
    rw [predictCore_score dFit forest28 _ _ _ rfl (by decide) (by decide)]
    refine congrArg some ?_
    exact headD_zipWith_scaleVal_fitSelf ora0.std (extract_features "x" none) (by decide)
  have hafter : (AnomalyDetector.predict ora0
      (AnomalyDetector.train ora0 dFit []).state "x" none).toOption.map
      PredictOut.anomaly_score = some ((extractRec "x").lines_of_code) := by
    rw [predict_eq_predictCore]
    have htr : (AnomalyDetector.train ora0 dFit []).state.scaler.transformRow ora0.std
        ((extract_features "x" none).map Prod.fst)
        ((extract_features "x" none).map Prod.snd) = .error .notFitted := rfl
    simp only [htr]
    rw [predictCore_score _ forest28 _ _ _ rfl (by decide) (by decide)]
    refine congrArg some ?_
    exact extract_features_headD "x" (by decide)
  intro heq
  have h2 : some ((extractRec "x").lines_of_code) = some (0 : ℚ) := by
    rw [← hafter, heq, hbefore]
  exact absurd (Option.some.inj h2) (ne_of_gt (lines_of_code_pos "x"))

/-! ## C9 -/

/-- The remediation lines of the ten factor keys, in rule order. -/
def canonicalRecLines : List String := canonicalFactorKeys.filterMap remLineFor

theorem seg_keys_sublist {c : Prop} [Decidable c] (x : Factor) :
    List.Sublist ((if c then [x] else ([] : List Factor)).map Factor.factor) [x.factor] := by
  by_cases hc : c
  · rw [if_pos hc]; exact List.Sublist.refl _
  · rw [if_neg hc]; exact List.nil_sublist _

theorem seg_lines_sublist {c : Prop} [Decidable c] (x : Factor) :
    List.Sublist (recLines (if c then [x] else [])) (remLineFor x.factor).toList := by
  by_cases hc : c
  · rw [if_pos hc]
    cases h : remLineFor x.factor with
    | none => simp [recLines, h]
    | some line => simp [recLines, h]
  · rw [if_neg hc]; simp [recLines]

theorem recLines_append (l1 l2 : List Factor) :
    recLines (l1 ++ l2) = recLines l1 ++ recLines l2 :=
  List.filterMap_append l1 l2 _

/-- The factor keys emitted by the rule engine are a sublist of the ten
rule keys in rule order. -/
theorem analyze_keys_sublist (F : FeatureRec) :
    List.Sublist ((analyze_anomaly_factors F).map Factor.factor) canonicalFactorKeys := by
  unfold analyze_anomaly_factors
  simp only [List.map_append]
  exact
    List.Sublist.append (List.Sublist.append (List.Sublist.append (List.Sublist.append
      (List.Sublist.append (List.Sublist.append (List.Sublist.append (List.Sublist.append
        (List.Sublist.append (seg_keys_sublist _) (seg_keys_sublist _)) (seg_keys_sublist _))
        (seg_keys_sublist _)) (seg_keys_sublist _)) (seg_keys_sublist _)) (seg_keys_sublist _))
      (seg_keys_sublist _)) (seg_keys_sublist _)) (seg_keys_sublist _)

/-- The remediation lines of the emitted factors are a sublist of the ten
fixed remediation lines. -/
theorem analyze_lines_sublist (F : FeatureRec) :
    List.Sublist (recLines (analyze_anomaly_factors F)) canonicalRecLines := by
  unfold analyze_anomaly_factors
  simp only [recLines_append]
  exact
    List.Sublist.append (List.Sublist.append (List.Sublist.append (List.Sublist.append
      (List.Sublist.append (List.Sublist.append (List.Sublist.append (List.Sublist.append
        (List.Sublist.append (seg_lines_sublist _) (seg_lines_sublist _)) (seg_lines_sublist _))
        (seg_lines_sublist _)) (seg_lines_sublist _)) (seg_lines_sublist _)) (seg_lines_sublist _))
      (seg_lines_sublist _)) (seg_lines_sublist _)) (seg_lines_sublist _)

theorem analyze_keys_nodup (F : FeatureRec) :
    ((analyze_anomaly_factors F).map Factor.factor).Nodup :=
  List.Nodup.sublist (analyze_keys_sublist F) (by decide)

theorem analyze_lines_nodup (F : FeatureRec) :
    (recLines (analyze_anomaly_factors F)).Nodup :=
  List.Nodup.sublist (analyze_lines_sublist F) (by decide)

theorem header_recLines_nodup (F : FeatureRec) :
    (recHeader :: recLines (analyze_anomaly_factors F)).Nodup := by
  refine List.nodup_cons.mpr ⟨?_, analyze_lines_nodup F⟩
  intro hmem
  have : recHeader ∈ canonicalRecLines := (analyze_lines_sublist F).subset hmem
  exact absurd this (by decide)

theorem recLines_count_one (F : FeatureRec) (f : Factor)
    (hf : f ∈ analyze_anomaly_factors F) :
    ∃ line, remLineFor f.factor = some line ∧
      (recLines (analyze_anomaly_factors F)).count line = 1 := by
  have hkey : f.factor ∈ canonicalFactorKeys :=
    (analyze_keys_sublist F).subset (List.mem_map_of_mem Factor.factor hf)
  have hall : ∀ k ∈ canonicalFactorKeys, (remLineFor k).isSome = true := by decide
  obtain ⟨line, hline⟩ := Option.isSome_iff_exists.mp (hall _ hkey)
  refine ⟨line, hline, ?_⟩
  have hmem : line ∈ recLines (analyze_anomaly_factors F) :=
    List.mem_filterMap.mpr ⟨f, hf, by rw [hline]⟩
  exact List.count_eq_one_of_mem (analyze_lines_nodup F) hmem

/-- Inversion of `predictCore` on an anomalous result: the factor list is
the rule engine's output and the recommendation is the header plus the
per-factor lines. -/
theorem predictCore_anomalous (d : AnomalyDetector) (pairs : List (String × ℚ))
    (F : FeatureRec) (X : List ℚ) (r : PredictOut)
    (hr : (predictCore d pairs F X).toOption = some r) (ha : r.is_anomaly = true) :
    r.anomaly_factors = analyze_anomaly_factors F ∧
    r.recommendation
      = String.intercalate "\n" (recHeader :: recLines (analyze_anomaly_factors F)) := by
  unfold predictCore at hr
  split at hr
  · exact absurd hr (by simp [Except.toOption])
  · rename_i f hf
    cases hs : f.scoreRow X with
    | error e => rw [hs] at hr; exact absurd hr (by simp [Except.bind, Except.toOption])
    | ok score =>
      rw [hs] at hr
      cases hl : f.labelRow X with
      | error e => rw [hl] at hr; exact absurd hr (by simp [Except.bind, Except.toOption])
      | ok pred =>
        rw [hl] at hr
        simp only [Except.bind, Except.toOption, Option.some.injEq] at hr
        subst hr
        have hpred : pred = -1 := by
          have := ha
          simp only [PredictOut.is_anomaly] at this
          exact of_decide_eq_true this
        constructor
        · show (if pred = -1 then analyze_anomaly_factors F else []) = _
          rw [if_pos hpred]
        · show generate_recommendation pred
              (if pred = -1 then analyze_anomaly_factors F else []) = _
          rw [if_pos hpred]
          unfold generate_recommendation
          rw [if_neg (fun hne => hne hpred)]

/-- **C9**.  For every anomalous prediction result, no factor key repeats
in `anomaly_factors`, and the recommendation text is the fixed header plus
exactly one fixed remediation line per factor, with no duplicate lines. -/
theorem C9_recommendation_lines (ora : SkOracle) (d : AnomalyDetector)
    (code : String) (bytecode : Option String) (r : PredictOut)
    (hr : (AnomalyDetector.predict ora d code bytecode).toOption = some r)
    (ha : r.is_anomaly = true) :
    (r.anomaly_factors.map Factor.factor).Nodup ∧
    r.recommendation = String.intercalate "\n" (recHeader :: recLines r.anomaly_factors) ∧
    (recHeader :: recLines r.anomaly_factors).Nodup ∧
    ∀ f ∈ r.anomaly_factors, ∃ line, remLineFor f.factor = some line ∧
      (recLines r.anomaly_factors).count line = 1 := by
  rw [predict_eq_predictCore] at hr
  obtain ⟨hfac, hrec⟩ := predictCore_anomalous d _ _ _ r hr ha
  rw [hfac]
  exact ⟨analyze_keys_nodup _, by rw [hrec], header_recLines_nodup _,
    fun f hf => recLines_count_one _ f hf⟩

/-- Witness for `C9_recommendation_lines`: the always-anomalous detector
`dAnom` on the source `"x"`. -/
theorem C9_recommendation_lines_witness :
    ((AnomalyDetector.predict ora0 dAnom "x" none).toOption = some rAnom) ∧
    (rAnom.is_anomaly = true) ∧
    ((rAnom.anomaly_factors.map Factor.factor).Nodup ∧
      rAnom.recommendation
        = String.intercalate "\n" (recHeader :: recLines rAnom.anomaly_factors) ∧
      (recHeader :: recLines rAnom.anomaly_factors).Nodup ∧
      ∀ f ∈ rAnom.anomaly_factors, ∃ line, remLineFor f.factor = some line ∧
        (recLines rAnom.anomaly_factors).count line = 1) :=
  ⟨rfl, rfl, C9_recommendation_lines ora0 dAnom "x" none rAnom rfl rfl⟩
